import Mathlib

/-!
Verification of the ko-stdict MCP server (src/server/main.py) against its
specification.  The Python code is shallowly embedded: JSON values become an
inductive type, Python truthiness and `dict.get` become explicit functions,
and code that can raise becomes `Except`-valued.
-/

namespace Stdict

/-- Model of the values `json.loads` can produce (numbers restricted to
integers, which is all the claims exercise). -/
inductive JSON where
  | null : JSON
  | bool : Bool → JSON
  | num : Int → JSON
  | str : String → JSON
  | arr : List JSON → JSON
  | obj : List (String × JSON) → JSON

/-- Python truthiness of a JSON value (`if x:`). -/
def truthy : JSON → Bool
  | .null => false
  | .bool b => b
  | .num n => n != 0
  | .str s => s != ""
  | .arr xs => !xs.isEmpty
  | .obj f => !f.isEmpty

/-- Python `d.get(k, default)` on a dict, modelled as first-match lookup in an
association list. -/
def getD (f : List (String × JSON)) (k : String) (d : JSON) : JSON :=
  match f with
  | [] => d
  | (k', v) :: rest => if k' = k then v else getD rest k d

/-- Python `k in d` on a dict. -/
def containsKey (f : List (String × JSON)) (k : String) : Bool :=
  match f with
  | [] => false
  | (k', _) :: rest => k' = k || containsKey rest k

/-- Python `a or b`. -/
def pyOr (a b : JSON) : JSON := if truthy a then a else b

mutual

/-- Python `repr` of a JSON value (string escaping inside containers is not
modelled; no claim exercises it). -/
def pyRepr : JSON → String
  | .null => "None"
  | .bool true => "True"
  | .bool false => "False"
  | .num n => toString n
  | .str s => "\x27" ++ s ++ "\x27"
  | .arr xs => "[" ++ String.intercalate ", " (pyReprList xs) ++ "]"
  | .obj f => "\x7b" ++ String.intercalate ", " (pyReprObj f) ++ "\x7d"

def pyReprList : List JSON → List String
  | [] => []
  | x :: xs => pyRepr x :: pyReprList xs

def pyReprObj : List (String × JSON) → List String
  | [] => []
  | (k, v) :: f => ("\x27" ++ k ++ "\x27: " ++ pyRepr v) :: pyReprObj f

end

/-- Python `str` of a JSON value (as used by f-string interpolation). -/
def pyStr : JSON → String
  | .str s => s
  | j => pyRepr j

/-- The `if not isinstance(x, list): x = [x] if x else []` pattern used at each
nesting level of the view-response normalizer. -/
def wrapList (j : JSON) : List JSON :=
  match j with
  | .arr xs => xs
  | j => if truthy j then [j] else []

/-- First `some` in an ordered list of probe results. -/
def firstSome : List (Option JSON) → Option JSON
  | [] => none
  | some v :: _ => some v
  | none :: rest => firstSome rest

/-- `enumerate(xs, start)`. -/
def enumFrom (start : Nat) : List α → List (Nat × α)
  | [] => []
  | x :: xs => (start, x) :: enumFrom (start + 1) xs

/-- Python `str.strip()`: drop leading and trailing whitespace. -/
def pyStrip (s : String) : String :=
  String.mk (((s.data.dropWhile Char.isWhitespace).reverse.dropWhile
    Char.isWhitespace).reverse)

/-- Python exceptions the embedded code can raise. -/
inductive PyErr where
  | runtimeError : String → PyErr
  | attributeError : PyErr
  | typeError : PyErr
deriving DecidableEq

/-- One sense record produced by `_fetch_entry_by_target_code`. -/
structure Sense where
  type : JSON
  definition : JSON
  examples : List JSON

/-- The dict returned by `_fetch_entry_by_target_code`. -/
structure Entry where
  target_code : Int
  word : JSON
  pos : JSON
  senses : List Sense

/-- One item dict built by the `search` tool. -/
structure SearchItem where
  target_code : JSON
  word : JSON
  pos : JSON
  definition : JSON
  link : JSON
  type : JSON
  resource_uri : String

/-- The dict returned by the `search` tool. -/
structure SearchResult where
  total : JSON
  start : JSON
  num : JSON
  items : List SearchItem

/-- `humanize_error` (main.py lines 106-117).  `err_json.get("error", {})` may
be a non-dict, in which case `err.get` raises AttributeError; appending a
truthy non-string `message` to a string raises TypeError. -/
def humanize_error (err_json : List (String × JSON)) : Except PyErr String :=
  match getD err_json "error" (.obj []) with
  | .obj f =>
    let code := pyStr (getD f "error_code" (.str ""))
    let base :=
      if code = "020" then "등록되지 않은 키입니다."
      else if code = "021" then "일시적으로 사용 중지된 인증 키입니다."
      else if code = "100" then "부적절한 쿼리 요청입니다(q 누락 등)."
      else if code = "103" then "부적절한 검색 개수(num)입니다."
      else "요청 중 오류가 발생했습니다."
    let msg := getD f "message" (.str "")
    if truthy msg then
      match msg with
      | .str m => .ok ("[" ++ code ++ "] " ++ base ++ " - " ++ m)
      | _ => .error .typeError
    else .ok ("[" ++ code ++ "] " ++ base)
  | _ => .error .attributeError

/-- The examples list of one sense block (main.py lines 165-172): a list
`example_info` is filtered to the dict elements with a truthy `example`;
a single truthy dict with a truthy `example` contributes that value;
anything else contributes nothing. -/
def exampleList (exi : JSON) : List JSON :=
  match exi with
  | .arr es => es.filterMap (fun e =>
      match e with
      | .obj ef => if truthy (getD ef "example" .null) then some (getD ef "example" .null) else none
      | _ => none)
  | .obj ef => if truthy (getD ef "example" .null) then [getD ef "example" .null] else []
  | _ => []

/-- The senses contributed by the value of `cpi.get("sense_info", [])`
(main.py lines 158-178): wrap a single value, then keep each dict block as a
sense record. -/
def senseInfoSenses (siVal : JSON) : List Sense :=
  (wrapList siVal).filterMap (fun sense =>
    match sense with
    | .obj sf => some ⟨getD sf "type" .null, getD sf "definition" .null,
        exampleList (getD sf "example_info" .null)⟩
    | _ => none)

/-- The senses contributed by one comm-pattern block (non-dicts are skipped by
`continue`, main.py lines 155-157). -/
def commPatternSenses (cpi : JSON) : List Sense :=
  match cpi with
  | .obj cf => senseInfoSenses (getD cf "sense_info" (.arr []))
  | _ => []

/-- The senses contributed by the value of `pi.get("comm_pattern_info", [])`
(main.py lines 150-153). -/
def commPatternListSenses (cpiVal : JSON) : List Sense :=
  (wrapList cpiVal).flatMap commPatternSenses

/-- One step of the pos-info loop (main.py lines 144-178): non-dict blocks are
skipped; while `pos` is falsy it is reassigned from `pi.get("pos", "")`; the
block's senses are appended. -/
def posInfoStep (acc : JSON × List Sense) (pi : JSON) : JSON × List Sense :=
  match pi with
  | .obj pf =>
    let pos := if truthy acc.1 then acc.1 else getD pf "pos" (.str "")
    (pos, acc.2 ++ commPatternListSenses (getD pf "comm_pattern_info" (.arr [])))
  | _ => acc

/-- The whole pos-info traversal, applied to the value of
`wi.get("pos_info", [])` (main.py lines 139-178), starting from `pos = ""`
and no senses. -/
def posInfoFold (piVal : JSON) : JSON × List Sense :=
  (wrapList piVal).foldl posInfoStep (.str "", [])

/-- The normalization part of `_fetch_entry_by_target_code` (main.py lines
129-185), applied to the decoded view response.  `(raw.get(k) or {})`
substitutes `{}` for falsy values, but a truthy non-dict at
`channel`/`item`/`word_info` makes the following `.get` raise
AttributeError. -/
def entryNormalize (raw : List (String × JSON)) (target_code : Int) :
    Except PyErr Entry :=
  if containsKey raw "error" then
    match humanize_error raw with
    | .ok m => .error (.runtimeError m)
    | .error e => .error e
  else
    match pyOr (getD raw "channel" .null) (.obj []) with
    | .obj chf =>
      match pyOr (getD chf "item" .null) (.obj []) with
      | .obj itf =>
        match pyOr (getD itf "word_info" .null) (.obj []) with
        | .obj wif =>
          let word := getD wif "word" .null
          let ps := posInfoFold (getD wif "pos_info" (.arr []))
          .ok ⟨target_code, word, ps.1, ps.2⟩
        | _ => .error .attributeError
      | _ => .error .attributeError
    | _ => .error .attributeError

/-- One iteration of the item loop in `search` (main.py lines 251-262).
`it.get` and `sense.get` raise AttributeError on non-dicts (`it.get("sense")
or {}` only substitutes for falsy values). -/
def searchItemOf (it : JSON) : Except PyErr SearchItem :=
  match it with
  | .obj f =>
    match pyOr (getD f "sense" .null) (.obj []) with
    | .obj sf =>
      .ok ⟨getD f "target_code" .null, getD f "word" .null, getD f "pos" .null,
        getD sf "definition" .null, getD sf "link" .null, getD sf "type" .null,
        "stdict://entry/" ++ pyStr (getD f "target_code" .null)⟩
    | _ => .error .attributeError
  | _ => .error .attributeError

/-- The parameter validation in `search` (main.py lines 222-228). -/
def searchClamp (start num : Int) : Int × Int :=
  let start := if start < 1 then 1 else start
  let num := if num < 10 then 10 else if num > 100 then 100 else num
  (start, num)

/-- The query parameters `search` sends to the remote (main.py lines 231-239),
built after clamping. -/
def searchRequestParams (key : JSON) (q : String) (start num : Int)
    (advanced : String) : List (String × JSON) :=
  let c := searchClamp start num
  [("key", key), ("type_search", .str "search"), ("q", .str q),
   ("req_type", .str "json"), ("start", .num c.1), ("num", .num c.2),
   ("advanced", .str advanced)]

/-- The response-processing part of `search` (main.py lines 241-269), applied
to the decoded response and the already-clamped `start`/`num` (the remote's
omitted `total`/`start`/`num` fall back to `0` and the request's values).
`ch = data.get("channel", {})` has no `or`, so a present non-dict `channel`
(null included) makes `ch.get` raise; iterating a truthy non-empty string
yields one-character strings whose `.get` raises, and iterating any other
non-list raises TypeError. -/
def searchNormalize (data : List (String × JSON)) (start num : Int) :
    Except PyErr SearchResult :=
  if containsKey data "error" then
    match humanize_error data with
    | .ok m => .error (.runtimeError m)
    | .error e => .error e
  else
    match getD data "channel" (.obj []) with
    | .obj chf =>
      let itemsList : Except PyErr (List JSON) :=
        match pyOr (getD chf "item" .null) (.arr []) with
        | .obj f => .ok [.obj f]
        | .arr xs => .ok xs
        | .str _ => .error .attributeError
        | _ => .error .typeError
      match itemsList with
      | .ok xs =>
        match xs.mapM searchItemOf with
        | .ok items => .ok ⟨getD chf "total" (.num 0), getD chf "start" (.num start),
            getD chf "num" (.num num), items⟩
        | .error e => .error e
      | .error e => .error e
    | _ => .error .attributeError

/-- The per-sense markdown lines of `entry_resource` (main.py lines 199-209).
The line buffer is a Python list whose elements are usually strings, but
`lines.append(d)` (line 203) appends the null-coalesced definition *raw*,
without string conversion — so the buffer is modelled as `List JSON`, with
every f-string-built line a `.str` and the definition line the raw value.
The type in the H2 heading and each example bullet go through f-strings and
are str-converted; the examples block appears only when the list is
non-empty, and a trailing blank line closes each sense. -/
def renderSenseLines (i : Nat) (s : Sense) : List JSON :=
  let t := pyOr s.type (.str "")
  let d := pyOr s.definition (.str "")
  [.str ("## 뜻 " ++ toString i ++ ". " ++ pyStr t), d]
    ++ (if s.examples.isEmpty then []
        else [.str "", .str "**용례**"]
          ++ s.examples.map (fun e => .str ("- " ++ pyStr e)))
    ++ [.str ""]

/-- The markdown line buffer of `entry_resource` (main.py lines 194-209).
The `data.get('word','')` / `data.get('pos','')` defaults never fire because
`_fetch_entry_by_target_code` always populates both keys, so the f-string
interpolates `str` of the stored value. -/
def renderEntryLines (target_code : Int) (data : Entry) : List JSON :=
  [.str ("# " ++ pyStr data.word ++ " (" ++ pyStr data.pos ++ ")"),
   .str ("*target_code*: " ++ toString target_code),
   .str ""]
    ++ (enumFrom 1 data.senses).flatMap (fun p => renderSenseLines p.1 p.2)

/-- Python `sep.join(lines)`: concatenates string elements, raising TypeError
when any element is not a string. -/
def pyJoin (sep : String) : List JSON → Except PyErr String
  | [] => .ok ""
  | [.str s] => .ok s
  | .str s :: rest =>
    match pyJoin sep rest with
    | .ok r => .ok (s ++ sep ++ r)
    | .error e => .error e
  | _ => .error .typeError

/-- The markdown document of `entry_resource` (main.py line 211):
`"\n".join(lines)`, which raises TypeError when a sense carried a truthy
non-string definition. -/
def renderEntry (target_code : Int) (data : Entry) : Except PyErr String :=
  pyJoin "\n" (renderEntryLines target_code data)

/-- The four credential sources of `get_api_key`, in chain order. -/
inductive Source where
  | env : Source
  | config : Source
  | store : Source
  | interactive : Source
deriving DecidableEq

/-- Outcome of `ctx.elicit(...)`: the action string and the (optional string)
payload, as read by `getattr(result, "action"/"data", None)`. -/
structure ElicitResult where
  action : String
  data : Option String
deriving DecidableEq

/-- The external world `get_api_key` reads and writes: the environment
variable (`none` when unset), the config file (existence flag plus the result
of reading and JSON-parsing it, `.error` when either raises), the keyring
module's availability and the result of `get_password` (`.error` when the
query raises), and whether the two best-effort writes would succeed. -/
structure CredState where
  env : Option String
  configExists : Bool
  configContent : Except Unit JSON
  keyringAvail : Bool
  keyringStored : Except Unit (Option String)
  keyringWriteOk : Bool
  configWriteOk : Bool

/-- Prepend a consulted source to a chain result's trace. -/
def withSource (s : Source) (r : Except Unit JSON × CredState × List Source) :
    Except Unit JSON × CredState × List Source :=
  (r.1, r.2.1, s :: r.2.2)

/-- Source 1 lookup (main.py lines 47-49): `os.getenv` is truthy exactly when
the variable is set and non-empty, and is then returned. -/
def probeEnv (st : CredState) : Option JSON :=
  match st.env with
  | some s => if s = "" then none else some (.str s)
  | none => none

/-- Source 2 lookup (main.py lines 51-59): when the config file exists, read
and parse it and take a truthy `api_key`; a raised read, parse, or
`.get`-on-non-dict error is swallowed into a miss. -/
def probeConfig (st : CredState) : Option JSON :=
  if st.configExists then
    match st.configContent with
    | .ok (.obj f) =>
      let k := getD f "api_key" .null
      if truthy k then some k else none
    | _ => none
  else none

/-- Source 3 lookup (main.py lines 62-68): query the keyring when the module
imported; a raised query or a falsy password is a miss. -/
def probeStore (st : CredState) : Option JSON :=
  if st.keyringAvail then
    match st.keyringStored with
    | .ok (some k) => if k = "" then none else some (.str k)
    | _ => none
  else none

/-- Source 4 lookup (main.py lines 72-77): on accept with truthy data, the
stripped value. -/
def probeElicit (ctx : Option ElicitResult) : Option JSON :=
  match ctx with
  | some r =>
    match r.data with
    | some d => if r.action = "accept" ∧ d ≠ "" then some (.str (pyStrip d)) else none
    | none => none
  | none => none

/-- The write-back of a freshly elicited key (main.py lines 78-89): a
best-effort `keyring.set_password` (attempted only when the module imported,
any error swallowed), then a best-effort write of `{"api_key": value}` to the
config file (creating the parent directory; any error swallowed, leaving the
file as it was). -/
def writeback (st : CredState) (t : String) : CredState :=
  let st1 := if st.keyringAvail && st.keyringWriteOk then
      { st with keyringStored := .ok (some t) } else st
  if st.configWriteOk then
    { st1 with
        configExists := true
        configContent := .ok (.obj [("api_key", .str t)]) }
  else st1

/-- Step 4 of `get_api_key` (main.py lines 71-92): elicit when a context is
present; on accept with truthy data, strip it, write it back, and return it;
otherwise raise RuntimeError (modelled as `.error ()`). -/
def elicitStage (st : CredState) (ctx : Option ElicitResult) :
    Except Unit JSON × CredState × List Source :=
  match ctx with
  | none => (.error (), st, [])
  | some r =>
    match r.data with
    | some d =>
      if r.action = "accept" ∧ d ≠ "" then
        (.ok (.str (pyStrip d)), writeback st (pyStrip d), [Source.interactive])
      else (.error (), st, [Source.interactive])
    | none => (.error (), st, [Source.interactive])

/-- Step 3 of `get_api_key` (main.py lines 61-68): the keyring is consulted
only when the module imported; a hit returns, a miss falls through to
elicitation. -/
def storeStage (st : CredState) (ctx : Option ElicitResult) :
    Except Unit JSON × CredState × List Source :=
  if st.keyringAvail then
    match probeStore st with
    | some v => (.ok v, st, [Source.store])
    | none => withSource .store (elicitStage st ctx)
  else elicitStage st ctx

/-- Step 2 of `get_api_key` (main.py lines 51-59): a truthy config `api_key`
returns, anything else falls through to the keyring step. -/
def configStage (st : CredState) (ctx : Option ElicitResult) :
    Except Unit JSON × CredState × List Source :=
  match probeConfig st with
  | some v => (.ok v, st, [Source.config])
  | none => withSource .config (storeStage st ctx)

/-- `get_api_key` (main.py lines 46-92), with the list of consulted sources
made explicit.  Step 1: a set, non-empty environment variable is returned at
once without consulting anything else. -/
def get_api_key (st : CredState) (ctx : Option ElicitResult) :
    Except Unit JSON × CredState × List Source :=
  match probeEnv st with
  | some v => (.ok v, st, [Source.env])
  | none => withSource .env (configStage st ctx)

/-! Specification-side characterizations, written from the spec's words, to be
compared with the embedded code. -/

/-- Modelled from the spec (§4.3): the fixed four-code explanation table with
its generic fallback. -/
def knownExplanation (code : String) : String :=
  if code = "020" then "등록되지 않은 키입니다."
  else if code = "021" then "일시적으로 사용 중지된 인증 키입니다."
  else if code = "100" then "부적절한 쿼리 요청입니다(q 누락 등)."
  else if code = "103" then "부적절한 검색 개수(num)입니다."
  else "요청 중 오류가 발생했습니다."

/-- Modelled from the spec (§4.3): `"[<code>] <explanation>( - <message>)?"`,
the raw message appended only when non-empty. -/
def errorMessageFmt (f : List (String × JSON)) : String :=
  let code := pyStr (getD f "error_code" (.str ""))
  let msg := getD f "message" (.str "")
  if truthy msg then
    "[" ++ code ++ "] " ++ knownExplanation code ++ " - " ++ pyStr msg
  else "[" ++ code ++ "] " ++ knownExplanation code

/-- The error envelope's `message` is renderable: either a string or falsy
(a truthy non-string makes the `' - ' + msg` concatenation raise). -/
def msgRenderable (f : List (String × JSON)) : Prop :=
  match getD f "message" (.str "") with
  | .str _ => True
  | m => truthy m = false

/-- The view response navigates without AttributeError: each of `channel`,
`channel.item`, `item.word_info` is, after the `or {}` substitution of falsy
values, a dict. -/
def navShapeOk (raw : List (String × JSON)) : Bool :=
  match pyOr (getD raw "channel" .null) (.obj []) with
  | .obj chf =>
    match pyOr (getD chf "item" .null) (.obj []) with
    | .obj itf =>
      match pyOr (getD itf "word_info" .null) (.obj []) with
      | .obj _ => true
      | _ => false
    | _ => false
  | _ => false

/-- Modelled from the spec (§4.5): the `pos` (read with default `""`) of the
first part-of-speech dict block whose `pos` is truthy. -/
def firstTruthyPos : List JSON → Option JSON
  | [] => none
  | .obj pf :: rest =>
    if truthy (getD pf "pos" (.str "")) then some (getD pf "pos" (.str ""))
    else firstTruthyPos rest
  | _ :: rest => firstTruthyPos rest

/-- The value `pos` ends at when no block's `pos` is truthy: starting from
`p`, each dict block overwrites it with its own `pos` read (default `""`). -/
def lastDictPosFrom (p : JSON) : List JSON → JSON
  | [] => p
  | .obj pf :: rest => lastDictPosFrom (getD pf "pos" (.str "")) rest
  | _ :: rest => lastDictPosFrom p rest

/-- Modelled from the spec (§4.5): the senses one part-of-speech block
contributes (non-dict blocks contribute none). -/
def piSenses (pi : JSON) : List Sense :=
  match pi with
  | .obj pf => commPatternListSenses (getD pf "comm_pattern_info" (.arr []))
  | _ => []

/-- The pos-info loop from an arbitrary accumulator: the final `pos` is the
accumulator if truthy, else the first truthy block `pos`, else the last dict
block's `pos` read; the senses of every block are appended in order. -/
lemma posInfoFold_go (l : List JSON) (p : JSON) (ss : List Sense) :
    l.foldl posInfoStep (p, ss) =
      ((if truthy p then p
        else match firstTruthyPos l with
          | some q => q
          | none => lastDictPosFrom p l),
       ss ++ l.flatMap piSenses) := by
  induction l generalizing p ss with
  | nil => simp [firstTruthyPos, lastDictPosFrom]
  | cons x rest ih =>
    cases x with
    | obj pf =>
      rw [List.foldl_cons, List.flatMap_cons]
      by_cases hp : truthy p
      · by_cases hg : truthy (getD pf "pos" (.str ""))
        · simp [posInfoStep, hp, hg, ih, firstTruthyPos, piSenses]
        · simp [posInfoStep, hp, hg, ih, firstTruthyPos, piSenses]
      · by_cases hg : truthy (getD pf "pos" (.str ""))
        · simp [posInfoStep, hp, hg, ih, firstTruthyPos, piSenses]
        · simp [posInfoStep, hp, hg, ih, firstTruthyPos, lastDictPosFrom, piSenses]
    | null =>
      rw [List.foldl_cons, List.flatMap_cons]
      simp [posInfoStep, ih, firstTruthyPos, lastDictPosFrom, piSenses]
    | bool b =>
      rw [List.foldl_cons, List.flatMap_cons]
      simp [posInfoStep, ih, firstTruthyPos, lastDictPosFrom, piSenses]
    | num n =>
      rw [List.foldl_cons, List.flatMap_cons]
      simp [posInfoStep, ih, firstTruthyPos, lastDictPosFrom, piSenses]
    | str s =>
      rw [List.foldl_cons, List.flatMap_cons]
      simp [posInfoStep, ih, firstTruthyPos, lastDictPosFrom, piSenses]
    | arr xs =>
      rw [List.foldl_cons, List.flatMap_cons]
      simp [posInfoStep, ih, firstTruthyPos, lastDictPosFrom, piSenses]

/-- Without an `error` key, `entryNormalize` succeeds exactly when the
`channel`/`item`/`word_info` navigation hits no truthy non-dict. -/
lemma entryNormalize_isOk_iff (raw : List (String × JSON)) (tc : Int)
    (herr : containsKey raw "error" = false) :
    (entryNormalize raw tc).isOk = true ↔ navShapeOk raw = true := by
  unfold entryNormalize navShapeOk
  simp only [herr, Bool.false_eq_true, if_false]
  rcases h1 : pyOr (getD raw "channel" .null) (.obj []) with _ | b | n | s | xs | chf <;>
    try simp [Except.isOk, Except.toBool]
  rcases h2 : pyOr (getD chf "item" .null) (.obj []) with _ | b | n | s | xs | itf <;>
    try simp [Except.isOk, Except.toBool]
  rcases h3 : pyOr (getD itf "word_info" .null) (.obj []) with _ | b | n | s | xs | wif <;>
    simp [Except.isOk, Except.toBool]

/-- Modelled from the spec (§9): an ordered list of fallible probes; the
resolver returns the first present value or a terminal failure. -/
def chainResult (l : List (Option JSON)) : Except Unit JSON :=
  match firstSome l with
  | some v => .ok v
  | none => .error ()

/-- The elicitation step returns exactly what its probe yields. -/
lemma elicitStage_fst (st : CredState) (ctx : Option ElicitResult) :
    (elicitStage st ctx).1 = chainResult [probeElicit ctx] := by
  unfold elicitStage probeElicit chainResult
  rcases ctx with _ | ⟨a, d⟩
  · rfl
  · rcases d with _ | d
    · rfl
    · by_cases h : a = "accept" ∧ d ≠ "" <;> simp [h, firstSome]

/-- The keyring step resolves like the two-probe chain store-then-elicit. -/
lemma storeStage_fst (st : CredState) (ctx : Option ElicitResult) :
    (storeStage st ctx).1 = chainResult [probeStore st, probeElicit ctx] := by
  unfold storeStage
  by_cases ha : st.keyringAvail
  · cases hps : probeStore st <;>
      simp [ha, hps, chainResult, firstSome, withSource, elicitStage_fst st ctx]
  · have hps : probeStore st = none := by simp [probeStore, ha]
    simp [ha, hps, chainResult, firstSome, elicitStage_fst st ctx]

/-- The config step resolves like the three-probe chain config-store-elicit. -/
lemma configStage_fst (st : CredState) (ctx : Option ElicitResult) :
    (configStage st ctx).1 = chainResult [probeConfig st, probeStore st, probeElicit ctx] := by
  unfold configStage
  cases hpc : probeConfig st <;>
    simp [hpc, chainResult, firstSome, withSource, storeStage_fst st ctx]

/-- C1: `get_api_key` consults its four sources in the strict order
environment variable, config-file `api_key`, platform secret store,
interactive elicitation, and returns the first non-empty (truthy) value a
source yields (the elicited value in stripped form), failing only when all
four miss; each source's read/parse/query failure is a swallowed miss (so the
chain continues past it, as encoded in the probe functions); and when the
environment variable is set and non-empty the consulted-source trace is
exactly the environment variable, so config file, secret store and prompt are
never consulted. -/
theorem credential_chain_order (st : CredState) (ctx : Option ElicitResult) :
    (get_api_key st ctx).1
      = chainResult [probeEnv st, probeConfig st, probeStore st, probeElicit ctx]
    ∧ ((probeEnv st).isSome = true → (get_api_key st ctx).2.2 = [Source.env]) := by
  constructor
  · unfold get_api_key
    cases hpe : probeEnv st <;>
      simp [hpe, chainResult, firstSome, withSource, configStage_fst st ctx]
  · intro h
    cases hpe : probeEnv st
    · rw [hpe] at h; simp at h
    · simp [get_api_key, hpe]

/-- Witness for C1 at a concrete state: with the environment variable set to
a non-empty string, resolution returns it and consults only the environment,
even though config file, store and elicitation would all yield values. -/
theorem credential_chain_order_witness :
    (get_api_key ⟨some "envkey", true, .ok (.obj [("api_key", .str "cfg")]),
        true, .ok (some "store"), true, true⟩ (some ⟨"accept", some "typed"⟩)).2.2
      = [Source.env] :=
  (credential_chain_order ⟨some "envkey", true, .ok (.obj [("api_key", .str "cfg")]),
      true, .ok (some "store"), true, true⟩ (some ⟨"accept", some "typed"⟩)).2 (by rfl)

/-- C6: the effective parameters `search` sends satisfy `start ≥ 1` and
`num ∈ [10, 100]`; concretely `start=0` becomes 1, `num=5` becomes 10 and
`num=500` becomes 100, so a caller can never request fewer than 10 results. -/
theorem search_param_clamping (key : JSON) (q : String) (start num : Int)
    (advanced : String) :
    getD (searchRequestParams key q start num advanced) "start" .null
      = .num (searchClamp start num).1
    ∧ getD (searchRequestParams key q start num advanced) "num" .null
      = .num (searchClamp start num).2
    ∧ 1 ≤ (searchClamp start num).1
    ∧ 10 ≤ (searchClamp start num).2
    ∧ (searchClamp start num).2 ≤ 100
    ∧ searchClamp 0 5 = (1, 10)
    ∧ (searchClamp 7 500).2 = 100 := by
  refine ⟨?_, ?_, ?_, ?_, ?_, by decide, by decide⟩
  · simp [searchRequestParams, getD]
  · simp [searchRequestParams, getD]
  · simp only [searchClamp]
    split_ifs <;> omega
  · simp only [searchClamp]
    split_ifs <;> omega
  · simp only [searchClamp]
    split_ifs <;> omega

/-- C8: every successfully built search item carries
`resource_uri = "stdict://entry/" ++ str(target_code)`, and an item without a
`target_code` yields the malformed `"stdict://entry/None"`, also through the
full search normalizer. -/
theorem search_resource_uri_format :
    (∀ (f : List (String × JSON)) (r : SearchItem),
      searchItemOf (.obj f) = .ok r →
      r.resource_uri = "stdict://entry/" ++ pyStr (getD f "target_code" .null))
    ∧ searchItemOf (.obj [])
        = .ok ⟨.null, .null, .null, .null, .null, .null, "stdict://entry/None"⟩
    ∧ searchNormalize [("channel", .obj [("item", .arr [.obj []])])] 1 10
        = .ok ⟨.num 0, .num 1, .num 10,
            [⟨.null, .null, .null, .null, .null, .null, "stdict://entry/None"⟩]⟩ := by
  refine ⟨?_, rfl, rfl⟩
  intro f r h
  simp only [searchItemOf] at h
  rcases hps : pyOr (getD f "sense" JSON.null) (JSON.obj []) with _ | b | n | s2 | xs | sf <;>
    (rw [hps] at h; cases h) <;> rfl

/-- Witness for C8 at the concrete item without `target_code`. -/
theorem search_resource_uri_format_witness :
    (⟨.null, .null, .null, .null, .null, .null,
        "stdict://entry/None"⟩ : SearchItem).resource_uri
      = "stdict://entry/" ++ pyStr (getD [] "target_code" .null) :=
  search_resource_uri_format.1 [] _ rfl

/-- With a dict error envelope whose message is a string or falsy,
`humanize_error` produces the spec's formatted message. -/
lemma humanize_error_fmt (raw f : List (String × JSON))
    (hf : getD raw "error" (.obj []) = .obj f) (hm : msgRenderable f) :
    humanize_error raw = .ok (errorMessageFmt f) := by
  unfold msgRenderable at hm
  unfold humanize_error errorMessageFmt knownExplanation
  simp only [hf]
  rcases hmsg : getD f "message" (.str "") with _ | b | n | s | xs | o
  · simp [truthy]
  · rw [hmsg] at hm
    simp [truthy] at hm
    simp [truthy, hm]
  · rw [hmsg] at hm
    simp [truthy] at hm
    simp [truthy, hm]
  · by_cases hs : s = "" <;> simp [truthy, hs, pyStr]
  · rw [hmsg] at hm
    simp [truthy] at hm
    simp [truthy, hm]
  · rw [hmsg] at hm
    simp [truthy] at hm
    simp [truthy, hm]

/-- C5 (amended): for every response whose top-level `error` value is an
object with a string (or falsy) `message`, both search and entry fail before
any structural parsing with the message `"[<code>] <explanation>"`, the
remote's message appended after `" - "` only when non-empty, the explanation
from the fixed four-code table with a generic fallback; concretely the 020
envelope yields exactly `"[020] 등록되지 않은 키입니다. - x"`.  (A truthy non-object
`error` value or truthy non-string `message` still fails, but with an
unformatted attribute/type error — see the counterexample.) -/
theorem error_envelope_translation :
    (∀ (raw f : List (String × JSON)) (s n tc : Int),
      containsKey raw "error" = true →
      getD raw "error" (.obj []) = .obj f →
      msgRenderable f →
      searchNormalize raw s n = .error (.runtimeError (errorMessageFmt f))
      ∧ entryNormalize raw tc = .error (.runtimeError (errorMessageFmt f)))
    ∧ searchNormalize
        [("error", .obj [("error_code", .str "020"), ("message", .str "x")])] 1 10
        = .error (.runtimeError "[020] 등록되지 않은 키입니다. - x")
    ∧ entryNormalize
        [("error", .obj [("error_code", .str "020"), ("message", .str "x")])] 7
        = .error (.runtimeError "[020] 등록되지 않은 키입니다. - x") := by
  refine ⟨?_, rfl, rfl⟩
  intro raw f s n tc herr hf hm
  have h := humanize_error_fmt raw f hf hm
  constructor
  · unfold searchNormalize
    simp [herr, h]
  · unfold entryNormalize
    simp [herr, h]

/-- Witness for C5 at a concrete unknown-code envelope without a message:
both operations fail with the generic explanation and no appended message. -/
theorem error_envelope_translation_witness :
    searchNormalize [("error", .obj [("error_code", .str "999")])] 1 10
      = .error (.runtimeError "[999] 요청 중 오류가 발생했습니다.")
    ∧ entryNormalize [("error", .obj [("error_code", .str "999")])] 3
      = .error (.runtimeError "[999] 요청 중 오류가 발생했습니다.") :=
  error_envelope_translation.1 [("error", .obj [("error_code", .str "999")])]
    [("error_code", .str "999")] 1 10 3 rfl rfl trivial

/-- Counterexample to C5 as stated: the response `{"error": 5}` has a
top-level `error` key, yet both operations fail with an AttributeError from
`err.get` (the code crashes before formatting), not with a message of the
claimed `"[<code>] <explanation>"` form. -/
theorem error_envelope_nondict_counterexample :
    searchNormalize [("error", .num 5)] 1 10 = .error .attributeError
    ∧ entryNormalize [("error", .num 5)] 1 = .error .attributeError
    ∧ (match searchNormalize [("error", .num 5)] 1 10 with
        | .error (.runtimeError _) => False
        | _ => True) :=
  ⟨rfl, rfl, trivial⟩

/-- A key that is not in a dict reads as the lookup default. -/
lemma getD_of_not_containsKey (f : List (String × JSON)) (k : String) (d : JSON)
    (h : containsKey f k = false) : getD f k d = d := by
  induction f with
  | nil => rfl
  | cons p rest ih =>
    rcases p with ⟨k', v⟩
    simp only [containsKey, Bool.or_eq_false_iff, decide_eq_false_iff_not] at h
    simp [getD, h.1, ih h.2]

/-- C7 (amended): a search response whose `channel.item` is a single
*non-empty* object normalizes identically to the same response with the item
wrapped in a one-element sequence, and an absent `channel.item` yields an
empty items list.  (An empty single object is falsy, so `ch.get("item") or []`
drops it, unlike its wrapped form — see the counterexample.) -/
theorem search_single_item_equiv :
    (∀ (o chRest rest : List (String × JSON)) (s n : Int), o ≠ [] →
      containsKey rest "error" = false →
      searchNormalize (("channel", .obj (("item", .obj o) :: chRest)) :: rest) s n
        = searchNormalize (("channel", .obj (("item", .arr [.obj o]) :: chRest)) :: rest) s n)
    ∧ (∀ (chf rest : List (String × JSON)) (s n : Int),
      containsKey chf "item" = false → containsKey rest "error" = false →
      searchNormalize (("channel", .obj chf) :: rest) s n
        = .ok ⟨getD chf "total" (.num 0), getD chf "start" (.num s),
            getD chf "num" (.num n), []⟩) := by
  constructor
  · intro o chRest rest s n ho herr
    have hne : o.isEmpty = false := by
      cases o with
      | nil => exact absurd rfl ho
      | cons a l => rfl
    simp [searchNormalize, containsKey, herr, getD, pyOr, truthy, hne]
  · intro chf rest s n hitem herr
    simp [searchNormalize, containsKey, herr, getD,
      getD_of_not_containsKey chf "item" .null hitem, pyOr, truthy, List.mapM.loop]
    rfl

/-- Witness for C7 at a concrete one-field item object. -/
theorem search_single_item_equiv_witness :
    searchNormalize [("channel", .obj [("item", .obj [("word", .str "w")])])] 1 10
      = searchNormalize [("channel", .obj [("item", .arr [.obj [("word", .str "w")]])])] 1 10 :=
  search_single_item_equiv.1 [("word", .str "w")] [] [] 1 10 (by simp) rfl

/-- Counterexample to C7 as stated: an *empty* single item object is falsy
and is dropped by `ch.get("item") or []`, yielding no items, while its
one-element-sequence encoding yields one all-null item. -/
theorem search_empty_single_item_counterexample :
    searchNormalize [("channel", .obj [("item", .obj [])])] 1 10
      = .ok ⟨.num 0, .num 1, .num 10, []⟩
    ∧ searchNormalize [("channel", .obj [("item", .arr [.obj []])])] 1 10
      = .ok ⟨.num 0, .num 1, .num 10,
          [⟨.null, .null, .null, .null, .null, .null, "stdict://entry/None"⟩]⟩
    ∧ ([] : List SearchItem)
        ≠ [⟨.null, .null, .null, .null, .null, .null, "stdict://entry/None"⟩] :=
  ⟨rfl, rfl, by simp⟩

/-- C2 (amended): the Entry Normalizer produces the same result whether the
part-of-speech level, the pattern level, or a sense's `example_info` is
encoded as a single object or as the one-element sequence of that object, and
likewise for a *non-empty* single object at the sense level; absence of a
level is the empty sequence; and the traversal raises nothing — without an
error key and with object-shaped `channel`/`item`/`word_info` the
normalization succeeds for every encoding of the inner levels.  (An empty
single sense object is dropped while its wrapped form yields one empty sense
— see the counterexample.) -/
theorem entry_single_object_equiv :
    (∀ o : List (String × JSON), posInfoFold (.obj o) = posInfoFold (.arr [.obj o]))
    ∧ (∀ o : List (String × JSON),
        commPatternListSenses (.obj o) = commPatternListSenses (.arr [.obj o]))
    ∧ (∀ o : List (String × JSON), o ≠ [] →
        senseInfoSenses (.obj o) = senseInfoSenses (.arr [.obj o]))
    ∧ (∀ o : List (String × JSON), exampleList (.obj o) = exampleList (.arr [.obj o]))
    ∧ (∀ wif : List (String × JSON), containsKey wif "pos_info" = false →
        posInfoFold (getD wif "pos_info" (.arr [])) = (.str "", []))
    ∧ posInfoFold (.arr []) = (.str "", [])
    ∧ commPatternListSenses (.arr []) = []
    ∧ senseInfoSenses (.arr []) = []
    ∧ exampleList .null = []
    ∧ (∀ (raw : List (String × JSON)) (tc : Int), containsKey raw "error" = false →
        navShapeOk raw = true → (entryNormalize raw tc).isOk = true) := by
  refine ⟨?_, ?_, ?_, ?_, ?_, rfl, rfl, rfl, rfl, ?_⟩
  · intro o
    cases o <;> rfl
  · intro o
    cases o <;> rfl
  · intro o ho
    cases o with
    | nil => exact absurd rfl ho
    | cons a l => rfl
  · intro o
    by_cases h : truthy (getD o "example" .null) = true <;> simp [exampleList, h]
  · intro wif h
    rw [getD_of_not_containsKey wif "pos_info" (.arr []) h]
    rfl
  · intro raw tc herr hnav
    exact (entryNormalize_isOk_iff raw tc herr).mpr hnav

/-- Witness for C2 at a concrete one-field sense block. -/
theorem entry_single_object_equiv_witness :
    senseInfoSenses (.obj [("definition", .str "d")])
      = senseInfoSenses (.arr [.obj [("definition", .str "d")]]) :=
  entry_single_object_equiv.2.2.1 [("definition", .str "d")] (by simp)

/-- Counterexample to C2 as stated: at the sense level an empty single object
is falsy, so the wrap pattern turns it into no blocks, while its
one-element-sequence encoding produces one sense with null type/definition;
the resulting Entries differ. -/
theorem entry_empty_sense_counterexample :
    entryNormalize [("channel", .obj [("item", .obj [("word_info", .obj [("pos_info",
        .obj [("comm_pattern_info", .obj [("sense_info", .obj [])])])])])])] 1
      = .ok ⟨1, .null, .str "", []⟩
    ∧ entryNormalize [("channel", .obj [("item", .obj [("word_info", .obj [("pos_info",
        .obj [("comm_pattern_info", .obj [("sense_info", .arr [.obj []])])])])])])] 1
      = .ok ⟨1, .null, .str "", [⟨.null, .null, []⟩]⟩
    ∧ ([] : List Sense) ≠ [⟨.null, .null, []⟩] :=
  ⟨rfl, rfl, by simp⟩

/-- C9 (amended): the Entry's `pos` is the `pos` value of the first
part-of-speech dict block whose `pos` is truthy, later blocks' values being
ignored, while the senses of all blocks are concatenated in traversal order
without deduplication or merging; when no block has a truthy `pos`, the
result is the last dict block's `pos` read with default `""` — the empty
string when there is no block or the last block lacks the field, but e.g.
null when the last block's `pos` is explicitly null (see the
counterexample). -/
theorem entry_pos_first_truthy :
    (∀ l : List JSON, (posInfoFold (.arr l)).1
        = (match firstTruthyPos l with
           | some q => q
           | none => lastDictPosFrom (.str "") l))
    ∧ (∀ l : List JSON, (posInfoFold (.arr l)).2 = l.flatMap piSenses)
    ∧ (∀ (wif : List (String × JSON)) (tc : Int),
        entryNormalize [("channel", .obj [("item", .obj [("word_info", .obj wif)])])] tc
          = .ok ⟨tc, getD wif "word" .null,
              (posInfoFold (getD wif "pos_info" (.arr []))).1,
              (posInfoFold (getD wif "pos_info" (.arr []))).2⟩) := by
  refine ⟨?_, ?_, ?_⟩
  · intro l
    show (l.foldl posInfoStep (.str "", [])).1 = _
    rw [posInfoFold_go]
    simp [truthy]
  · intro l
    show (l.foldl posInfoStep (.str "", [])).2 = _
    rw [posInfoFold_go]
    simp
  · intro wif tc
    cases wif <;> rfl

/-- Counterexample to C9 as stated: a single part-of-speech block carrying an
explicit null `pos` — so no block has a non-empty `pos` — leaves the Entry's
`pos` as null, not as the empty string the claim requires. -/
theorem entry_pos_null_counterexample :
    entryNormalize [("channel", .obj [("item", .obj [("word_info", .obj [("pos_info",
        .obj [("pos", .null)])])])])] 1
      = .ok ⟨1, .null, .null, []⟩
    ∧ JSON.null ≠ JSON.str "" :=
  ⟨rfl, fun h => JSON.noConfusion h⟩

/-- Unfolding of `entryNormalize` on a response with a single `channel`
object: the result depends only on the item navigation below it. -/
lemma entryNormalize_channel (chf : List (String × JSON)) (tc : Int) :
    entryNormalize [("channel", .obj chf)] tc
      = (match pyOr (getD chf "item" .null) (.obj []) with
         | .obj itf =>
           match pyOr (getD itf "word_info" .null) (.obj []) with
           | .obj wif => .ok ⟨tc, getD wif "word" .null,
               (posInfoFold (getD wif "pos_info" (.arr []))).1,
               (posInfoFold (getD wif "pos_info" (.arr []))).2⟩
           | _ => .error .attributeError
         | _ => .error .attributeError) := by
  cases chf <;> rfl

/-- Unfolding of `entryNormalize` one level further, on a single `item`
object. -/
lemma entryNormalize_item (itf : List (String × JSON)) (tc : Int) :
    entryNormalize [("channel", .obj [("item", .obj itf)])] tc
      = (match pyOr (getD itf "word_info" .null) (.obj []) with
         | .obj wif => .ok ⟨tc, getD wif "word" .null,
             (posInfoFold (getD wif "pos_info" (.arr []))).1,
             (posInfoFold (getD wif "pos_info" (.arr []))).2⟩
         | _ => .error .attributeError) := by
  cases itf <;> rfl

/-- C10 (amended): for a view response without a top-level `error` key, an
absent or null `channel`, `channel.item`, or `word_info` still normalizes
successfully to the Entry with the caller's target code, null word, empty-
string pos and no senses; and the normalization's failure points are exactly
the error envelope and a truthy non-object at one of those three positions
(so for responses whose navigation is object-shaped, the error-envelope check
is the only failure point). -/
theorem entry_normalize_failure_points :
    (∀ (raw : List (String × JSON)) (tc : Int),
      containsKey raw "error" = false →
      getD raw "channel" .null = .null →
      entryNormalize raw tc = .ok ⟨tc, .null, .str "", []⟩)
    ∧ (∀ (chf : List (String × JSON)) (tc : Int),
      getD chf "item" .null = .null →
      entryNormalize [("channel", .obj chf)] tc = .ok ⟨tc, .null, .str "", []⟩)
    ∧ (∀ (itf : List (String × JSON)) (tc : Int),
      getD itf "word_info" .null = .null →
      entryNormalize [("channel", .obj [("item", .obj itf)])] tc
        = .ok ⟨tc, .null, .str "", []⟩)
    ∧ (∀ (raw : List (String × JSON)) (tc : Int), containsKey raw "error" = false →
      ((entryNormalize raw tc).isOk = true ↔ navShapeOk raw = true)) := by
  refine ⟨?_, ?_, ?_, ?_⟩
  · intro raw tc herr hch
    unfold entryNormalize
    simp [herr, hch, pyOr, truthy]
    rfl
  · intro chf tc hitem
    rw [entryNormalize_channel, hitem]
    rfl
  · intro itf tc hwi
    rw [entryNormalize_item, hwi]
    rfl
  · intro raw tc herr
    exact entryNormalize_isOk_iff raw tc herr

/-- Witness for C10 at the empty response: no error key, no channel, and the
normalizer returns the all-default Entry. -/
theorem entry_normalize_failure_points_witness :
    entryNormalize [] 5 = .ok ⟨5, .null, .str "", []⟩ :=
  entry_normalize_failure_points.1 [] 5 rfl rfl

/-- Counterexample to C10 as stated: `{"channel": "x"}` has no `error` key,
yet entry normalization raises AttributeError (`"x".get` does not exist), so
the error-envelope check is not the only failure point. -/
theorem entry_nondict_channel_counterexample :
    containsKey [("channel", .str "x")] "error" = false
    ∧ entryNormalize [("channel", .str "x")] 1 = .error .attributeError :=
  ⟨rfl, rfl⟩

/-- C3 (amended): the renderer buffers the H1 heading `"# <word> (<pos>)"`, a
target-code line, and for each sense (1-indexed) the H2 heading
`"## 뜻 <i>. <type>"`, the definition line appended as the raw null-coalesced
value, and — only when the examples list is non-empty — a bold 용례 label
followed by one `"- <example>"` bullet per example; a null `type` or
`definition` renders as the empty string, but `word` and `pos` are
interpolated by str()-conversion, so string values appear verbatim while a
null `word`/`pos` renders as `"None"`; the spec's concrete example joins to
exactly the claimed document, while a truthy non-string definition makes the
final join raise TypeError instead of rendering (see the counterexample for
both divergences). -/
theorem entry_markdown_render :
    (∀ (tc tc2 : Int) (w p : String) (ss : List Sense),
      (renderEntryLines tc ⟨tc2, .str w, .str p, ss⟩).head?
        = some (.str ("# " ++ w ++ " (" ++ p ++ ")")))
    ∧ (∀ (tc : Int) (e : Entry),
        (renderEntryLines tc e).get? 1
          = some (.str ("*target_code*: " ++ toString tc)))
    ∧ (∀ exs : List JSON, renderSenseLines 1 ⟨.null, .null, exs⟩
        = [.str "## 뜻 1. ", .str ""]
          ++ (if exs.isEmpty then []
              else [.str "", .str "**용례**"]
                ++ exs.map (fun e => .str ("- " ++ pyStr e))) ++ [.str ""])
    ∧ (∀ (i : Nat) (t d : JSON), renderSenseLines i ⟨t, d, []⟩
        = [.str ("## 뜻 " ++ toString i ++ ". " ++ pyStr (pyOr t (.str ""))),
           pyOr d (.str ""), .str ""])
    ∧ (∀ (i : Nat) (t d : JSON) (x : JSON) (xs : List JSON),
        JSON.str "**용례**" ∈ renderSenseLines i ⟨t, d, x :: xs⟩)
    ∧ renderEntryLines 7 ⟨7, .str "사랑", .str "명사", [⟨.str "", .str "뜻1", [.str "예1"]⟩]⟩
        = [.str "# 사랑 (명사)", .str "*target_code*: 7", .str "", .str "## 뜻 1. ",
           .str "뜻1", .str "", .str "**용례**", .str "- 예1", .str ""]
    ∧ renderEntry 7 ⟨7, .str "사랑", .str "명사", [⟨.str "", .str "뜻1", [.str "예1"]⟩]⟩
        = .ok "# 사랑 (명사)\n*target_code*: 7\n\n## 뜻 1. \n뜻1\n\n**용례**\n- 예1\n" := by
  refine ⟨?_, ?_, ?_, ?_, ?_, rfl, rfl⟩
  · intro tc tc2 w p ss
    rfl
  · intro tc e
    rfl
  · intro exs
    rfl
  · intro i t d
    rfl
  · intro i t d x xs
    simp [renderSenseLines]

/-- Counterexample to C3 as stated: an Entry whose `word` is null renders the
H1 heading `"# None (명사)"` — a literal null marker — instead of rendering
the missing word as the empty string; and an Entry whose definition is the
truthy non-string `5` is buffered raw, so the final `"\n".join` raises
TypeError instead of emitting a document. -/
theorem entry_markdown_null_word_counterexample :
    (renderEntryLines 1 ⟨1, .null, .str "명사", []⟩).head? = some (.str "# None (명사)")
    ∧ renderEntry 1 ⟨1, .null, .str "명사", []⟩ = .ok "# None (명사)\n*target_code*: 1\n"
    ∧ "# None (명사)" ≠ "#  (명사)"
    ∧ renderEntry 1 ⟨1, .str "w", .str "p", [⟨.null, .num 5, []⟩]⟩
        = .error .typeError :=
  ⟨rfl, rfl, by decide, rfl⟩

/-- Write-back leaves the environment, keyring availability and the two
write-permission flags untouched. -/
lemma writeback_fields (st : CredState) (t : String) :
    (writeback st t).env = st.env
    ∧ (writeback st t).keyringAvail = st.keyringAvail
    ∧ (writeback st t).keyringWriteOk = st.keyringWriteOk
    ∧ (writeback st t).configWriteOk = st.configWriteOk := by
  unfold writeback
  by_cases h1 : st.keyringAvail && st.keyringWriteOk <;>
    by_cases h2 : st.configWriteOk <;> simp [h1, h2]

/-- A successful config write leaves the file existing with exactly
`{"api_key": t}`. -/
lemma writeback_config_set (st : CredState) (t : String)
    (h : st.configWriteOk = true) :
    (writeback st t).configExists = true
    ∧ (writeback st t).configContent = .ok (.obj [("api_key", .str t)]) := by
  unfold writeback
  by_cases h1 : st.keyringAvail && st.keyringWriteOk <;> simp [h1, h]

/-- A failed config write leaves the config file untouched. -/
lemma writeback_config_keep (st : CredState) (t : String)
    (h : st.configWriteOk = false) :
    (writeback st t).configExists = st.configExists
    ∧ (writeback st t).configContent = st.configContent := by
  unfold writeback
  by_cases h1 : st.keyringAvail && st.keyringWriteOk <;> simp [h1, h]

/-- A successful keyring write stores exactly `t`. -/
lemma writeback_keyring_set (st : CredState) (t : String)
    (hA : st.keyringAvail = true) (hW : st.keyringWriteOk = true) :
    (writeback st t).keyringStored = .ok (some t) := by
  unfold writeback
  by_cases h2 : st.configWriteOk <;> simp [hA, hW, h2]

/-- The environment probe is unchanged by write-back. -/
lemma probeEnv_writeback (st : CredState) (t : String) :
    probeEnv (writeback st t) = probeEnv st := by
  unfold probeEnv
  rw [(writeback_fields st t).1]

/-- After a successful config write of a non-empty key, the config probe
yields it. -/
lemma probeConfig_writeback_set (st : CredState) (t : String)
    (h : st.configWriteOk = true) (ht : t ≠ "") :
    probeConfig (writeback st t) = some (.str t) := by
  have hc := writeback_config_set st t h
  unfold probeConfig
  rw [hc.1, hc.2]
  simp [getD, truthy, ht]

/-- After a failed config write, the config probe is unchanged. -/
lemma probeConfig_writeback_keep (st : CredState) (t : String)
    (h : st.configWriteOk = false) :
    probeConfig (writeback st t) = probeConfig st := by
  have hc := writeback_config_keep st t h
  unfold probeConfig
  rw [hc.1, hc.2]

/-- After a successful keyring write of a non-empty key, the store probe
yields it. -/
lemma probeStore_writeback_set (st : CredState) (t : String)
    (hA : st.keyringAvail = true) (hW : st.keyringWriteOk = true) (ht : t ≠ "") :
    probeStore (writeback st t) = some (.str t) := by
  unfold probeStore
  rw [(writeback_fields st t).2.1, writeback_keyring_set st t hA hW]
  simp [hA, ht]

/-- A resolution hitting a persistent source (config or store) returns its
value and never consults the interactive prompt, whatever context is
offered. -/
lemma get_api_key_persistent (st : CredState) (v : JSON)
    (henv : probeEnv st = none)
    (h : probeConfig st = some v ∨ (probeConfig st = none ∧ probeStore st = some v)) :
    ∀ ctx2 : Option ElicitResult, (get_api_key st ctx2).1 = .ok v
      ∧ Source.interactive ∉ (get_api_key st ctx2).2.2 := by
  intro ctx2
  rcases h with h | ⟨h1, h2⟩
  · simp [get_api_key, henv, configStage, h, withSource]
  · by_cases hA : st.keyringAvail
    · simp [get_api_key, henv, configStage, h1, storeStage, hA, h2, withSource]
    · simp [probeStore, hA] at h2

/-- C4 (amended): after a successful interactive resolution — accept with a
non-empty string — the resolver strips the string, best-effort writes it to
the secret store and to the config file as `{"api_key": value}` (each write
independent, errors swallowed), and returns the stripped value, leaving the
environment untouched; and provided the *stripped* value is non-empty, when
at least one of the two writes succeeds a subsequent resolution returns the
value from a persistent source and never invokes the interactive path.  (A
whitespace-only input strips to the empty string, which both stores hold as a
falsy value, so a later resolution prompts again — see the counterexample.) -/
theorem interactive_writeback_persistence (st : CredState)
    (ctx : Option ElicitResult) (d : String)
    (henv : probeEnv st = none) (hcfg : probeConfig st = none)
    (hstore : probeStore st = none) (hctx : ctx = some ⟨"accept", some d⟩)
    (hd : d ≠ "") :
    (get_api_key st ctx).1 = .ok (.str (pyStrip d))
    ∧ ((get_api_key st ctx).2.1).env = st.env
    ∧ (st.configWriteOk = true →
        ((get_api_key st ctx).2.1).configExists = true
        ∧ ((get_api_key st ctx).2.1).configContent
            = .ok (.obj [("api_key", .str (pyStrip d))]))
    ∧ (st.keyringAvail = true → st.keyringWriteOk = true →
        ((get_api_key st ctx).2.1).keyringStored = .ok (some (pyStrip d)))
    ∧ (pyStrip d ≠ "" →
        (st.configWriteOk = true ∨ (st.keyringAvail = true ∧ st.keyringWriteOk = true)) →
        ∀ ctx2 : Option ElicitResult,
          (get_api_key ((get_api_key st ctx).2.1) ctx2).1 = .ok (.str (pyStrip d))
          ∧ Source.interactive ∉ (get_api_key ((get_api_key st ctx).2.1) ctx2).2.2) := by
  have hfst : get_api_key st ctx
      = (.ok (.str (pyStrip d)), writeback st (pyStrip d),
         Source.env :: Source.config ::
           ((if st.keyringAvail then [Source.store] else []) ++ [Source.interactive])) := by
    subst hctx
    by_cases hA : st.keyringAvail <;>
      simp [get_api_key, henv, configStage, hcfg, storeStage, hstore, hA,
        elicitStage, hd, withSource]
  rw [hfst]
  refine ⟨rfl, (writeback_fields st (pyStrip d)).1, ?_, ?_, ?_⟩
  · intro hcw
    exact writeback_config_set st (pyStrip d) hcw
  · intro hA hW
    exact writeback_keyring_set st (pyStrip d) hA hW
  · intro ht hor
    have henv2 : probeEnv (writeback st (pyStrip d)) = none := by
      rw [probeEnv_writeback]
      exact henv
    by_cases hcw : st.configWriteOk
    · exact get_api_key_persistent (writeback st (pyStrip d)) (.str (pyStrip d)) henv2
        (Or.inl (probeConfig_writeback_set st (pyStrip d) hcw ht))
    · have hcw' : st.configWriteOk = false := by
        exact Bool.not_eq_true st.configWriteOk ▸ eq_false_of_ne_true hcw
      rcases hor with h | ⟨hA, hW⟩
      · exact absurd h hcw
      · refine get_api_key_persistent (writeback st (pyStrip d)) (.str (pyStrip d)) henv2
          (Or.inr ⟨?_, probeStore_writeback_set st (pyStrip d) hA hW ht⟩)
        rw [probeConfig_writeback_keep st (pyStrip d) hcw']
        exact hcfg

/-- Witness for C4: a concrete state with empty env/config/store, both writes
succeeding, and an accepted `" key "`; the resolver returns `"key"` and the
next resolution does not consult the prompt. -/
theorem interactive_writeback_persistence_witness :
    (get_api_key (⟨none, false, .error (), true, .ok none, true, true⟩ : CredState)
        (some ⟨"accept", some " key "⟩)).1 = .ok (.str "key")
    ∧ Source.interactive ∉
        (get_api_key ((get_api_key
            (⟨none, false, .error (), true, .ok none, true, true⟩ : CredState)
            (some ⟨"accept", some " key "⟩)).2.1) none).2.2 := by
  have h := interactive_writeback_persistence
      (⟨none, false, .error (), true, .ok none, true, true⟩ : CredState)
      (some ⟨"accept", some " key "⟩) " key " rfl rfl rfl rfl (by decide)
  exact ⟨h.1, (h.2.2.2.2 (by decide) (Or.inl rfl) none).2⟩

/-- Counterexample to C4 as stated: the user accepts and supplies the
non-empty string `" "`; both writes succeed, yet they persist the stripped
empty string, so the subsequent resolution falls through every persistent
source and invokes the interactive path again. -/
theorem whitespace_key_reelicit_counterexample :
    (get_api_key (⟨none, false, .error (), true, .ok none, true, true⟩ : CredState)
        (some ⟨"accept", some " "⟩)).1 = .ok (.str "")
    ∧ ((get_api_key (⟨none, false, .error (), true, .ok none, true, true⟩ : CredState)
        (some ⟨"accept", some " "⟩)).2.1).configContent
        = .ok (.obj [("api_key", .str "")])
    ∧ Source.interactive ∈
        (get_api_key ((get_api_key
            (⟨none, false, .error (), true, .ok none, true, true⟩ : CredState)
            (some ⟨"accept", some " "⟩)).2.1) (some ⟨"accept", some " "⟩)).2.2 := by
  refine ⟨rfl, rfl, ?_⟩
  decide

end Stdict
